import Mathlib

/-!
Shallow embedding of `clic.h` (command line interface companion, 0.1.0-beta),
a single-file C header library for command line argument parsing.

Modelling conventions:
- C strings (`const char *`) become `String`; a pointer that can genuinely be
  NULL at a use site becomes `Option String`.
- The process-wide mutable registry `clic_globals` becomes an explicit
  `ClicGlobals` value threaded through every operation.
- `clic_fail` prints a message and terminates the process; operations that can
  reach it return `Except ClicError _`, the error carrying the message.
  `ClicError` has a `userInputError` constructor because the library's
  documentation distinguishes user-input failures, but the source only ever
  calls `clic_fail` from configuration checks (all user-input failure sites are
  TODO comments), so only `configurationError` is ever produced.
- Caller target variables (`int *variable`, `char **variable`) become indices
  into an explicit store `Store` (scalar and string cells), threaded through
  parsing.
- The unbounded C `while` loop in `clic_parse` becomes a fuel-indexed function
  returning `none` when the fuel runs out; divergence of the C loop is the
  statement that every fuel amount returns `none`.
- `isalpha` is the C default ("C" locale) classifier: ASCII letters only.
-/

/-- Errors reported through `clic_fail` (src/clic.h:509-514), which prints the
message and exits with failure. The two kinds follow the library's
documentation; the source as shipped only produces `configurationError`. -/
inductive ClicError where
  | configurationError (msg : String)
  | userInputError (msg : String)
deriving DecidableEq, Repr

/-- Embeds `enum clic_type` (src/clic.h:115-120). -/
inductive ClicType where
  | flag
  | bool
  | int
  | string
deriving DecidableEq, Repr

/-- Embeds `struct clic_scope` (src/clic.h:134-139) minus the intrusive list
pointer. Field defaults mirror C designated initializers zeroing omitted
fields. -/
structure ClicScope where
  subcommand_id : Int := 0
  subcommand_name : String := ""
  description : String := ""
  accept_unnamed_arguments : Bool := false
deriving DecidableEq, Repr

/-- Embeds `struct clic_param_or_arg` (src/clic.h:121-133) minus the intrusive
list pointer. The caller's target pointers `int *scalar_variable` and
`char **string_variable` are modelled as cell indices into a `Store`
(`none` = NULL pointer). Defaults mirror designated initializers. -/
structure ClicParamOrArg where
  subcommand_id : Int := 0
  name : String := ""
  description : String := ""
  type : ClicType := .flag
  is_required : Bool := false
  scalar_default_value : Int := 0
  scalar_variable : Option Nat := none
  mask : Int := 0
  string_default_value : Option String := none
  string_variable : Option Nat := none
  restrict_to_declared_options : Bool := false
deriving DecidableEq, Repr

/-- Embeds `struct clic_string_option` (src/clic.h:140-144). -/
structure ClicStringOption where
  subcommand_id : Int := 0
  param_or_arg_name : String := ""
  value : String := ""
deriving DecidableEq, Repr

/-- Embeds the static `clic_globals` (src/clic.h:163-171). The intrusive
singly-linked lists with end pointers (`struct clic_list`) become Lean lists;
`clic_add_to_list` (src/clic.h:417-426) appends at the end, so list order is
declaration order. The C global is zero-initialized, which the field defaults
mirror. `metadata.version` is compared against NULL in `clic_parse`, so it is
an `Option`. -/
structure ClicGlobals where
  is_init : Bool := false
  is_parsed : Bool := false
  flag_names : List String := []
  params_and_args : List ClicParamOrArg := []
  string_options : List ClicStringOption := []
  subcommand_scopes : List ClicScope := []
  version : Option String := none
  license : Option String := none
  main_scope : ClicScope := {}
deriving DecidableEq, Repr

/-- The caller's memory reachable from registered target pointers: scalar cells
(`int`) and string cells (`char *`, nullable). -/
structure Store where
  scalars : Nat → Int
  strings : Nat → Option String

/-- C `isalpha` in the default locale: ASCII letters. -/
def clic_isalpha (c : Char) : Bool :=
  ('a' ≤ c && c ≤ 'z') || ('A' ≤ c && c ≤ 'Z')

/-- Embeds `clic_check_initialized_and_not_parsed` (src/clic.h:428-436). -/
def clic_check_initialized_and_not_parsed (g : ClicGlobals) : Except ClicError Unit :=
  if !g.is_init then
    .error (.configurationError "clic has not been initialized")
  else if g.is_parsed then
    .error (.configurationError "clic has already parsed command line arguments")
  else
    .ok ()

/-- Embeds `clic_check_name_correctness` (src/clic.h:438-449). `none` is a NULL
`const char *name`. For an empty string the C code reads the NUL terminator,
which is not alphabetic, hence the empty-list error branch. The C loop fails
at the first character outside the accepted set; the embedding tests all
characters at once, producing the same result. -/
def clic_check_name_chars (cs : List Char) : Except ClicError Unit :=
  match cs with
  | [] => .error (.configurationError "clic: invalid parameter/argument name")
  | c :: rest =>
    if !clic_isalpha c then
      .error (.configurationError "clic: invalid parameter/argument name")
    else if (c :: rest).all (fun d => clic_isalpha d || d == '-' || d == '_') then
      .ok ()
    else
      .error (.configurationError "clic: invalid parameter/argument name")

/-- The non-NULL case of `clic_check_name_correctness`, over the name's
character list: see `clic_check_name_chars` above for the character scan. -/
def clic_check_name_correctness (name : Option String) : Except ClicError Unit :=
  match name with
  | none => .error (.configurationError "clic: invalid parameter/argument name")
  | some n => clic_check_name_chars n.data

/-- Embeds `clic_check_param_or_arg_declaration` (src/clic.h:451-470). -/
def clic_check_param_or_arg_declaration (g : ClicGlobals) (subcommand_id : Int)
    (param_or_arg_name : Option String) (should_be_declared : Bool) :
    Except ClicError Unit :=
  match clic_check_name_correctness param_or_arg_name with
  | .error e => .error e
  | .ok () =>
    let is_declared := g.params_and_args.any fun param_or_arg =>
      subcommand_id == param_or_arg.subcommand_id &&
        param_or_arg_name == some param_or_arg.name
    if should_be_declared && !is_declared then
      .error (.configurationError
        "clic: parameter/argument has not been declared in this scope")
    else if !should_be_declared && is_declared then
      .error (.configurationError
        "clic: parameter/argument has already been declared in this scope")
    else
      .ok ()

/-- Embeds `clic_check_subcommmand_declaration` (src/clic.h:472-497), keeping
the source's spelling. When `should_be_declared`, only `subcommand_id` is
checked (the name is passed as NULL there and never read). Note that in the
`!should_be_declared` branch the C loop fails only when a registered
subcommand matches on BOTH id and name. -/
def clic_check_subcommmand_declaration (g : ClicGlobals) (subcommand_id : Int)
    (subcommand_name : Option String) (should_be_declared : Bool) :
    Except ClicError Unit :=
  if subcommand_id ≠ 0 then
    if should_be_declared then
      if g.subcommand_scopes.any (fun scope => subcommand_id == scope.subcommand_id) then
        .ok ()
      else
        .error (.configurationError "clic: subcommand has not been declared")
    else
      match clic_check_name_correctness subcommand_name with
      | .error e => .error e
      | .ok () =>
        if g.subcommand_scopes.any (fun scope =>
            subcommand_id == scope.subcommand_id &&
              subcommand_name == some scope.subcommand_name) then
          .error (.configurationError "clic: subcommand has already been declared")
        else
          .ok ()
  else if !should_be_declared then
    .error (.configurationError
      "clic: 0 is already implicitely used as the main scope identifier")
  else
    .ok ()

/-- Embeds `clic_init` (src/clic.h:173-187). The C function performs no check
at all: it unconditionally sets `is_init`, overwrites the metadata and the
main scope, and cannot fail (hence no `Except`). It leaves `is_parsed` and the
four lists untouched. The compound literal zeroes `main_scope.subcommand_id`. -/
def clic_init (g : ClicGlobals) (program : String) (version license : Option String)
    (description : String) (accept_unnamed_arguments : Bool) : ClicGlobals :=
  { g with
    is_init := true
    version := version
    license := license
    main_scope := {
      subcommand_id := 0
      subcommand_name := program
      description := description
      accept_unnamed_arguments := accept_unnamed_arguments } }

/-- Embeds `clic_add_subcommand` (src/clic.h:189-205). -/
def clic_add_subcommand (g : ClicGlobals) (subcommand_id : Int) (name : String)
    (description : String) (accept_unnamed_arguments : Bool) :
    Except ClicError ClicGlobals :=
  match clic_check_initialized_and_not_parsed g with
  | .error e => .error e
  | .ok () =>
    match clic_check_name_correctness (some name) with
    | .error e => .error e
    | .ok () =>
      match clic_check_subcommmand_declaration g subcommand_id (some name) false with
      | .error e => .error e
      | .ok () =>
        .ok { g with subcommand_scopes := g.subcommand_scopes ++ [{
          subcommand_id := subcommand_id
          subcommand_name := name
          description := description
          accept_unnamed_arguments := accept_unnamed_arguments }] }

/-- Embeds `clic_add_param_or_arg` (src/clic.h:397-415): shared body of every
parameter/argument declaration. `inconsistent_data` carries the kind-specific
fields; the consistent fields are then overwritten, as in the C code. A NULL
name cannot reach the stored entry (the name-correctness check rejects it), so
`name.getD ""` is never the fallback on the success path. -/
def clic_add_param_or_arg (g : ClicGlobals) (subcommand_id : Int)
    (name : Option String) (description : String) (type : ClicType)
    (is_required : Bool) (inconsistent_data : ClicParamOrArg) :
    Except ClicError ClicGlobals :=
  match clic_check_initialized_and_not_parsed g with
  | .error e => .error e
  | .ok () =>
    match clic_check_name_correctness name with
    | .error e => .error e
    | .ok () =>
      match clic_check_subcommmand_declaration g subcommand_id none true with
      | .error e => .error e
      | .ok () =>
        match clic_check_param_or_arg_declaration g subcommand_id name false with
        | .error e => .error e
        | .ok () =>
          .ok { g with params_and_args := g.params_and_args ++ [{ inconsistent_data with
            subcommand_id := subcommand_id
            name := name.getD ""
            description := description
            type := type
            is_required := is_required }] }

/-- Embeds `clic_add_param_flag` (src/clic.h:207-221). The C code first
allocates a 2-byte `clic_flag_name` buffer holding the character and appends it
to `flag_names`, then declares the parameter; when a later check fails the
process exits, so the early list append is unobservable, which the `Except`
error (discarding the updated registry) mirrors. -/
def clic_add_param_flag (g : ClicGlobals) (subcommand_id : Int) (name : Char)
    (description : String) (scalar_variable : Nat) (mask : Int) :
    Except ClicError ClicGlobals :=
  let flag_name := String.mk [name]
  let g' := { g with flag_names := g.flag_names ++ [flag_name] }
  clic_add_param_or_arg g' subcommand_id (some flag_name) description .flag false
    { scalar_default_value := 0
      scalar_variable := some scalar_variable
      mask := mask }

/-- Embeds `clic_add_param_bool` (src/clic.h:223-233). -/
def clic_add_param_bool (g : ClicGlobals) (subcommand_id : Int)
    (name : Option String) (description : String) (default_value : Int)
    (scalar_variable : Nat) (mask : Int) : Except ClicError ClicGlobals :=
  clic_add_param_or_arg g subcommand_id name description .bool false
    { scalar_default_value := default_value
      scalar_variable := some scalar_variable
      mask := mask }

/-- Embeds `clic_add_param_int` (src/clic.h:235-244). -/
def clic_add_param_int (g : ClicGlobals) (subcommand_id : Int)
    (name : Option String) (description : String) (default_value : Int)
    (scalar_variable : Nat) : Except ClicError ClicGlobals :=
  clic_add_param_or_arg g subcommand_id name description .int false
    { scalar_default_value := default_value
      scalar_variable := some scalar_variable }

/-- Embeds `clic_add_param_string` (src/clic.h:246-257). -/
def clic_add_param_string (g : ClicGlobals) (subcommand_id : Int)
    (name : Option String) (description : String) (default_value : Option String)
    (string_variable : Nat) (restrict_to_declared_options : Bool) :
    Except ClicError ClicGlobals :=
  clic_add_param_or_arg g subcommand_id name description .string false
    { string_default_value := default_value
      string_variable := some string_variable
      restrict_to_declared_options := restrict_to_declared_options }

/-- Embeds `clic_add_arg_int` (src/clic.h:259-267). -/
def clic_add_arg_int (g : ClicGlobals) (subcommand_id : Int)
    (name : Option String) (description : String) (scalar_variable : Nat) :
    Except ClicError ClicGlobals :=
  clic_add_param_or_arg g subcommand_id name description .int true
    { scalar_variable := some scalar_variable }

/-- Embeds `clic_add_arg_string` (src/clic.h:269-278). -/
def clic_add_arg_string (g : ClicGlobals) (subcommand_id : Int)
    (name : Option String) (description : String) (string_variable : Nat)
    (restrict_to_declared_options : Bool) : Except ClicError ClicGlobals :=
  clic_add_param_or_arg g subcommand_id name description .string true
    { string_variable := some string_variable
      restrict_to_declared_options := restrict_to_declared_options }

/-- Embeds `clic_add_string_option` (src/clic.h:280-295). Note the source
checks only that the scope exists (by id, name passed as NULL) and that
`(subcommand_id, param_or_arg_name)` is declared; it never inspects the
declared entry's `type` or `restrict_to_declared_options` fields. -/
def clic_add_string_option (g : ClicGlobals) (subcommand_id : Int)
    (param_or_arg_name : Option String) (value : String) :
    Except ClicError ClicGlobals :=
  match clic_check_initialized_and_not_parsed g with
  | .error e => .error e
  | .ok () =>
    match clic_check_subcommmand_declaration g subcommand_id none true with
    | .error e => .error e
    | .ok () =>
      match clic_check_param_or_arg_declaration g subcommand_id param_or_arg_name true with
      | .error e => .error e
      | .ok () =>
        .ok { g with string_options := g.string_options ++ [{
          subcommand_id := subcommand_id
          param_or_arg_name := param_or_arg_name.getD ""
          value := value }] }

/-- Embeds `clic_parse_param_or_arg` (src/clic.h:499-507). The C body is a
stub: its own comment says `arg1` and `arg2` are command line arguments and
that it "returns the number of them used to parse param_or_arg", with a TODO
to "check type correctness, correct value, store in variable" — but it only
does `return 0`. It therefore consumes no token, never writes any target
variable, and cannot fail (no error channel in its type). -/
def clic_parse_param_or_arg (param_or_arg : ClicParamOrArg)
    (arg1 arg2 : Option String) (σ : Store) : Nat × Store :=
  (0, σ)

/-- The candidate parameter name extracted from token `s` by the chain of
tests in `clic_parse`'s parameter loop (src/clic.h:332-341): `-<alpha>` of
length exactly 2, then the `--no-` prefix, then the `--` prefix; `none` means
the token is not parameter syntax and the loop breaks. `strncmp(s, p, n) == 0`
is `s.data.take n = p.data` (the NUL terminator stops the comparison early for
shorter tokens, which then differ from the prefix). -/
def clic_param_candidate_name (s : String) : Option String :=
  if s.data.getD 0 (Char.ofNat 0) == '-' &&
      clic_isalpha (s.data.getD 1 (Char.ofNat 0)) && s.data.length == 2 then
    some (String.mk (s.data.drop 1))
  else if s.data.take 5 == "--no-".data then
    some (String.mk (s.data.drop 5))
  else if s.data.take 2 == "--".data then
    some (String.mk (s.data.drop 2))
  else
    none

/-- Embeds the subcommand detection step of `clic_parse` (src/clic.h:314-323):
when `argv[1]` exists (`argc > 1`) and equals a registered subcommand name
(first match in declaration order), that scope becomes active and one token is
counted; otherwise the main scope with no token counted. `argv` is the full
invocation, `argv[0]` the program name; indexing past the end yields `none`,
as C guarantees `argv[argc] == NULL`. -/
def clic_detect_subcommand (g : ClicGlobals) (argv : List String) :
    ClicScope × Nat :=
  match argv.get? 1 with
  | none => (g.main_scope, 0)
  | some tok =>
    match g.subcommand_scopes.find? (fun scope => tok == scope.subcommand_name) with
    | some scope => (scope, 1)
    | none => (g.main_scope, 0)

/-- How one run of `clic_parse`'s loops can end. `exited` is a process exit
from inside the parameter loop (`--help`, or `--version` with a version
string). `done` carries the final processed-token count, the caller memory,
and the registry after cleanup. -/
inductive ClicParseEnd where
  | exited
  | done (nb_processed_arguments : Nat) (σ : Store) (globals : ClicGlobals)

/-- How the parameter loop alone can end: a process exit (`--help` or
`--version`), or falling through to the rest of `clic_parse` (the C `break`,
or `argv` running out) with the token count and caller memory so far. -/
inductive ClicLoopEnd where
  | exited
  | broke (nb_processed_arguments : Nat) (σ : Store)

/-- Embeds the parameter loop of `clic_parse` (src/clic.h:326-364), fuel
indexed: `none` means the C `while` loop has not finished within `fuel`
iterations (so `∀ fuel, _ = none` is divergence). Each iteration reads
`argv[1 + nb]`; NULL (`none`) ends the loop, `"--"` is consumed and ends it, a
non-parameter token ends it unconsumed. On a token with parameter syntax the
first `(active scope id, name)` match is handed to `clic_parse_param_or_arg`
together with `argv[1 + nb + 1]`, and its return value advances `nb`. With no
match, `--help` and (when a version was supplied) `--version` exit the
process; any other token falls into a TODO comment and the loop repeats with
`nb` unchanged. -/
def clic_param_loop (g : ClicGlobals) (active_scope : ClicScope)
    (argv : List String) : Nat → Nat → Store → Option ClicLoopEnd
  | 0, _, _ => none
  | fuel + 1, nb_processed_arguments, σ =>
    match argv.get? (1 + nb_processed_arguments) with
    | none => some (.broke nb_processed_arguments σ)
    | some s =>
      if s == "--" then
        some (.broke (nb_processed_arguments + 1) σ)
      else
        match clic_param_candidate_name s with
        | none => some (.broke nb_processed_arguments σ)
        | some name =>
          match g.params_and_args.find? (fun param =>
              active_scope.subcommand_id == param.subcommand_id &&
                name == param.name) with
          | some param =>
            let r := clic_parse_param_or_arg param (some s)
              (argv.get? (1 + nb_processed_arguments + 1)) σ
            clic_param_loop g active_scope argv fuel
              (nb_processed_arguments + r.1) r.2
          | none =>
            if s == "--help" then
              some .exited
            else if s == "--version" && g.version.isSome then
              some .exited
            else
              clic_param_loop g active_scope argv fuel nb_processed_arguments σ

/-- Embeds the named-argument loop of `clic_parse` (src/clic.h:366-375): every
entry with `is_required` in the active scope, in declaration order, is handed
the next raw token (`none` when absent: the missing-argument case is a TODO
comment in the source and does not stop the loop) and `arg2 = NULL`;
`clic_parse_param_or_arg`'s return value advances the count. -/
def clic_eat_named_arguments (active_scope : ClicScope) (argv : List String) :
    List ClicParamOrArg → Nat → Store → Nat × Store
  | [], nb_processed_arguments, σ => (nb_processed_arguments, σ)
  | arg :: rest, nb_processed_arguments, σ =>
    if active_scope.subcommand_id == arg.subcommand_id && arg.is_required then
      let r := clic_parse_param_or_arg arg (argv.get? (1 + nb_processed_arguments)) none σ
      clic_eat_named_arguments active_scope argv rest (nb_processed_arguments + r.1) r.2
    else
      clic_eat_named_arguments active_scope argv rest nb_processed_arguments σ

/-- Embeds the cleanup step of `clic_parse` (src/clic.h:383-391): all four
declaration lists are freed en masse (the C code leaves the dangling list
heads in place, but `is_parsed` bars every later access to them). -/
def clic_cleanup (g : ClicGlobals) : ClicGlobals :=
  { g with
    flag_names := []
    params_and_args := []
    string_options := []
    subcommand_scopes := [] }

/-- Embeds `clic_parse` (src/clic.h:297-395) in its normal build (neither
`CLIC_DUMP_SYNOPSIS` nor `CLIC_DUMP_OPTIONS` defined). After the state check,
`is_parsed` is set; the subcommand is detected (detection reads only the
subcommand list and the main scope, which the `is_parsed` write does not
touch); the active scope's id is written through the `int *subcommand_id`
out-pointer — the write is the first component of the result, produced in
every branch, in particular when the parameter loop has not finished within
`fuel` iterations (second component `none`), since the source performs the
write unconditionally before the loop (and with no NULL check on the
pointer). Then the parameter loop and the named-argument loop run; the
trailing too-many-arguments check is a TODO comment (no effect); cleanup
frees all four lists. -/
def clic_parse (fuel : Nat) (g : ClicGlobals) (argv : List String) (σ : Store) :
    Except ClicError (Int × Option ClicParseEnd) :=
  match clic_check_initialized_and_not_parsed g with
  | .error e => .error e
  | .ok () =>
    match clic_param_loop { g with is_parsed := true }
        (clic_detect_subcommand g argv).1 argv fuel
        (clic_detect_subcommand g argv).2 σ with
    | none => .ok ((clic_detect_subcommand g argv).1.subcommand_id, none)
    | some .exited => .ok ((clic_detect_subcommand g argv).1.subcommand_id, some .exited)
    | some (.broke nb1 σ1) =>
      .ok ((clic_detect_subcommand g argv).1.subcommand_id,
        some (.done
          (clic_eat_named_arguments (clic_detect_subcommand g argv).1 argv
            g.params_and_args nb1 σ1).1
          (clic_eat_named_arguments (clic_detect_subcommand g argv).1 argv
            g.params_and_args nb1 σ1).2
          (clic_cleanup { g with is_parsed := true })))

/-! ## Concrete fixtures and helper lemmas -/

/-- A caller memory with every scalar cell 0 and every string cell NULL. -/
def σ0 : Store := ⟨fun _ => 0, fun _ => none⟩

/-- The NUL character is not alphabetic. -/
theorem clic_isalpha_nul : clic_isalpha (Char.ofNat 0) = false := by decide

/-- The state check succeeds exactly in the Declaring state: initialized and
not yet parsed. -/
theorem clic_check_initialized_ok_iff (g : ClicGlobals) :
    clic_check_initialized_and_not_parsed g = .ok () ↔
      g.is_init = true ∧ g.is_parsed = false := by
  unfold clic_check_initialized_and_not_parsed
  cases hi : g.is_init <;> cases hp : g.is_parsed <;> simp

/-- Outside the Declaring state the state check fails with a configuration
error. -/
theorem clic_check_initialized_error (g : ClicGlobals)
    (h : ¬(g.is_init = true ∧ g.is_parsed = false)) :
    ∃ m, clic_check_initialized_and_not_parsed g = .error (.configurationError m) := by
  unfold clic_check_initialized_and_not_parsed
  cases hi : g.is_init <;> cases hp : g.is_parsed <;> simp_all

/-- The character scan returns either success or a configuration error. -/
theorem clic_check_name_chars_cases (cs : List Char) :
    clic_check_name_chars cs = .ok () ∨
      ∃ m, clic_check_name_chars cs = .error (.configurationError m) := by
  cases cs with
  | nil => exact .inr ⟨"clic: invalid parameter/argument name", rfl⟩
  | cons c rest =>
    unfold clic_check_name_chars
    by_cases h1 : clic_isalpha c = true
    · by_cases h2 : ((c :: rest).all fun d => clic_isalpha d || d == '-' || d == '_') = true
      · exact .inl (by simp [h1, h2])
      · exact .inr ⟨"clic: invalid parameter/argument name", by simp [h1, h2]⟩
    · exact .inr ⟨"clic: invalid parameter/argument name", by simp [h1]⟩

/-- The name check returns either success or a configuration error. -/
theorem clic_check_name_correctness_cases (name : Option String) :
    clic_check_name_correctness name = .ok () ∨
      ∃ m, clic_check_name_correctness name = .error (.configurationError m) := by
  cases name with
  | none => exact .inr ⟨"clic: invalid parameter/argument name", rfl⟩
  | some n => exact clic_check_name_chars_cases n.data

/-! ## C8: the name validator -/

/-- The spec's contract for a valid name, stated from its words: "a name is
valid iff it is non-empty, its first character is alphabetic, and every
character is alphabetic, `-`, or `_`". -/
def clic_name_valid_spec (n : String) : Prop :=
  n.data ≠ [] ∧ (∀ c ∈ n.data.take 1, clic_isalpha c = true) ∧
    ∀ c ∈ n.data, clic_isalpha c = true ∨ c = '-' ∨ c = '_'

/-- C8: `clic_check_name_correctness` accepts a (non-NULL) name exactly when
the spec's validity contract holds — non-empty, alphabetic first character,
every character alphabetic, `-` or `_` — and on any violation it fails with a
ConfigurationError. -/
theorem clic_check_name_correctness_spec (n : String) :
    (clic_check_name_correctness (some n) = .ok () ↔ clic_name_valid_spec n) ∧
    (¬clic_name_valid_spec n →
      ∃ m, clic_check_name_correctness (some n) = .error (.configurationError m)) := by
  have hmain : clic_check_name_correctness (some n) = .ok () ↔ clic_name_valid_spec n := by
    show clic_check_name_chars n.data = .ok () ↔ clic_name_valid_spec n
    unfold clic_name_valid_spec
    cases hd : n.data with
    | nil => simp [clic_check_name_chars]
    | cons c cs =>
      constructor
      · intro hok
        by_cases h1 : clic_isalpha c = true
        · by_cases h2 : ((c :: cs).all fun d => clic_isalpha d || d == '-' || d == '_') = true
          · refine ⟨by simp, ?_, ?_⟩
            · intro x hx
              simp only [List.take_succ_cons, List.take_zero, List.mem_singleton] at hx
              rw [hx]
              exact h1
            · intro x hx
              have hx2 := List.all_eq_true.mp h2 x hx
              simp only [Bool.or_eq_true, beq_iff_eq] at hx2
              tauto
          · exact absurd hok (by unfold clic_check_name_chars; simp [h1, h2])
        · exact absurd hok (by unfold clic_check_name_chars; simp [h1])
      · rintro ⟨-, hfirst, hall⟩
        have h1 : clic_isalpha c = true := hfirst c (by simp)
        have h2 : ((c :: cs).all fun d => clic_isalpha d || d == '-' || d == '_') = true := by
          rw [List.all_eq_true]
          intro x hx
          rcases hall x hx with h | h | h <;> simp [h]
        unfold clic_check_name_chars
        simp [h1, h2]
  refine ⟨hmain, fun hnv => ?_⟩
  rcases clic_check_name_correctness_cases (some n) with hok | herr
  · exact absurd (hmain.mp hok) hnv
  · exact herr

/-! ## C2, C3: the per-parameter parsing routine is a no-op stub -/

/-- Flag parameter `-v` in the main scope, mask 0, targeting scalar cell 0:
exactly what `clic_add_param_flag(0, 'v', "verbose", &var, 0)` declares. -/
def flagV : ClicParamOrArg :=
  { subcommand_id := 0
    name := "v"
    description := "verbose"
    type := .flag
    is_required := false
    scalar_default_value := 0
    scalar_variable := some 0
    mask := 0 }

/-- Restricted String parameter `--mode` in the main scope targeting string
cell 0: what `clic_add_param_string(0, "mode", ..., &var, 1)` declares. -/
def modeParam : ClicParamOrArg :=
  { subcommand_id := 0
    name := "mode"
    description := "mode of operation"
    type := .string
    is_required := false
    string_default_value := some "fast"
    string_variable := some 0
    restrict_to_declared_options := true }

/-- C2 (against the claim): when the parameter loop matches the Flag `-v`,
`clic_parse_param_or_arg` neither writes the target variable (scalar cell 0 is
unchanged — in particular a variable initialized to 0 is NOT set to 1) nor
consumes any token (it returns 0, not 1), whatever the supplied tokens and
caller memory: the C routine is a `return 0` stub under a TODO comment. -/
theorem clic_parse_param_or_arg_flag_noop (arg1 arg2 : Option String) (σ : Store) :
    clic_parse_param_or_arg flagV arg1 arg2 σ = (0, σ) ∧
    (clic_parse_param_or_arg flagV arg1 arg2 σ).2.scalars 0 = σ.scalars 0 :=
  ⟨rfl, rfl⟩

/-- C3 (against the claim): when the parameter loop matches the restricted
String `--mode`, `clic_parse_param_or_arg` stores nothing into the target
string cell, consumes 0 tokens instead of 2, and cannot fail — the value token
(`arg2`) is never inspected, so neither a value outside the restricted set nor
an absent value produces a UserInputError: the C routine is a `return 0` stub
under a TODO comment, and its result type has no error channel. -/
theorem clic_parse_param_or_arg_string_noop (arg1 arg2 : Option String) (σ : Store) :
    clic_parse_param_or_arg modeParam arg1 arg2 σ = (0, σ) ∧
    (clic_parse_param_or_arg modeParam arg1 arg2 σ).2.strings 0 = σ.strings 0 :=
  ⟨rfl, rfl⟩

/-! ## C6: clic_init performs no state check -/

/-- The registry after `clic_init` was called twice in a row with different
arguments. -/
def gReInit : ClicGlobals :=
  clic_init (clic_init {} "prog" none none "first" false)
    "prog2" (some "2.0") (some "GPLv3") "second" true

/-- C6 counterexample: calling `clic_init` a second time does not fail — the
source function performs no check whatsoever (it cannot fail: no `clic_fail`
call, hence no error channel in the embedding) — and it re-establishes the
main-scope metadata with the new arguments. -/
theorem clic_init_twice_no_error :
    gReInit.is_init = true ∧
    gReInit.main_scope = ClicScope.mk 0 "prog2" "second" true ∧
    gReInit.version = some "2.0" ∧ gReInit.license = some "GPLv3" := by
  decide

/-- C6 amended: `clic_init` unconditionally succeeds from any prior state,
setting `is_init` and re-establishing the main-scope metadata, version and
license from its arguments; it leaves `is_parsed` (and the declaration lists)
untouched. -/
theorem clic_init_unconditional (g : ClicGlobals) (program : String)
    (version license : Option String) (description : String)
    (accept_unnamed_arguments : Bool) :
    (clic_init g program version license description accept_unnamed_arguments).is_init
        = true ∧
    (clic_init g program version license description accept_unnamed_arguments).main_scope
        = ClicScope.mk 0 program description accept_unnamed_arguments ∧
    (clic_init g program version license description accept_unnamed_arguments).version
        = version ∧
    (clic_init g program version license description accept_unnamed_arguments).license
        = license ∧
    (clic_init g program version license description accept_unnamed_arguments).is_parsed
        = g.is_parsed :=
  ⟨rfl, rfl, rfl, rfl, rfl⟩

/-! ## Characterizations of the declaration checks -/

/-- The new-subcommand check (`should_be_declared = 0`) succeeds exactly when
the id is nonzero, the name is valid, and no registered subcommand carries
both the same id and the same name. -/
theorem clic_check_subcommmand_new_iff (g : ClicGlobals) (id : Int) (name : String) :
    clic_check_subcommmand_declaration g id (some name) false = .ok () ↔
      (id ≠ 0 ∧ clic_check_name_correctness (some name) = .ok () ∧
        ∀ sc ∈ g.subcommand_scopes,
          ¬(sc.subcommand_id = id ∧ sc.subcommand_name = name)) := by
  unfold clic_check_subcommmand_declaration
  by_cases h0 : id = 0
  · simp [h0]
  · rw [if_pos h0, if_neg (by simp : ¬(false = true))]
    cases hn : clic_check_name_correctness (some name) with
    | error e => simp [hn]
    | ok u =>
      cases u
      by_cases ha : (g.subcommand_scopes.any fun scope =>
          id == scope.subcommand_id && some name == some scope.subcommand_name) = true
      · rw [if_pos ha]
        simp only [List.any_eq_true, Bool.and_eq_true, beq_iff_eq] at ha
        obtain ⟨sc, hmem, hid, hname⟩ := ha
        simp only [Option.some.injEq] at hname
        constructor
        · intro h; exact absurd h (by simp)
        · rintro ⟨-, -, hall⟩
          exact absurd ⟨hid.symm, hname.symm⟩ (hall sc hmem)
      · rw [if_neg ha]
        simp only [List.any_eq_true, Bool.and_eq_true, beq_iff_eq,
          Option.some.injEq, not_exists] at ha
        push_neg at ha
        refine ⟨fun _ => ⟨h0, rfl, fun sc hmem hboth => ?_⟩, fun _ => rfl⟩
        exact absurd hboth.2.symm (ha sc hmem hboth.1.symm)

/-- The declared-subcommand check (`should_be_declared = 1`) succeeds exactly
when the id is 0 (main scope) or some registered subcommand carries it; the
name is never read in this mode. -/
theorem clic_check_subcommmand_declared_iff (g : ClicGlobals) (id : Int)
    (name : Option String) :
    clic_check_subcommmand_declaration g id name true = .ok () ↔
      (id = 0 ∨ ∃ sc ∈ g.subcommand_scopes, sc.subcommand_id = id) := by
  unfold clic_check_subcommmand_declaration
  by_cases h0 : id = 0
  · simp [h0]
  · rw [if_pos h0]
    by_cases ha : (g.subcommand_scopes.any fun scope => id == scope.subcommand_id) = true
    · rw [if_pos ha]
      simp only [List.any_eq_true, beq_iff_eq] at ha
      obtain ⟨sc, hmem, hid⟩ := ha
      exact ⟨fun _ => .inr ⟨sc, hmem, hid.symm⟩, fun _ => rfl⟩
    · rw [if_neg ha]
      simp only [List.any_eq_true, beq_iff_eq, not_exists] at ha
      push_neg at ha
      constructor
      · intro h; exact absurd h (by simp)
      · rintro (h | ⟨sc, hmem, hid⟩)
        · exact absurd h h0
        · exact absurd hid.symm (ha sc hmem)

/-- The subcommand-declaration check returns either success or a configuration
error. -/
theorem clic_check_subcommmand_declaration_cases (g : ClicGlobals) (id : Int)
    (name : Option String) (should : Bool) :
    clic_check_subcommmand_declaration g id name should = .ok () ∨
      ∃ m, clic_check_subcommmand_declaration g id name should =
        .error (.configurationError m) := by
  unfold clic_check_subcommmand_declaration
  by_cases h0 : id = 0
  · cases should <;> simp [h0]
  · rw [if_pos h0]
    cases should with
    | true =>
      by_cases ha : (g.subcommand_scopes.any fun scope => id == scope.subcommand_id) = true
      · rw [if_pos rfl, if_pos ha]; exact .inl rfl
      · rw [if_pos rfl, if_neg ha]
        exact .inr ⟨"clic: subcommand has not been declared", rfl⟩
    | false =>
      rw [if_neg (by simp : ¬(false = true))]
      rcases clic_check_name_correctness_cases name with hok | ⟨m, herr⟩
      · rw [hok]
        by_cases ha : (g.subcommand_scopes.any fun scope =>
            id == scope.subcommand_id && name == some scope.subcommand_name) = true
        · rw [if_pos ha]
          exact .inr ⟨"clic: subcommand has already been declared", rfl⟩
        · rw [if_neg ha]; exact .inl rfl
      · rw [herr]; exact .inr ⟨m, rfl⟩

/-- The parameter/argument-declaration check succeeds exactly when the name is
valid and `(subcommand_id, name)` matches some declared entry iff
`should_be_declared` asks for one. -/
theorem clic_check_param_or_arg_declaration_iff (g : ClicGlobals) (id : Int)
    (name : String) (should : Bool) :
    clic_check_param_or_arg_declaration g id (some name) should = .ok () ↔
      (clic_check_name_correctness (some name) = .ok () ∧
        (should = true ↔
          ∃ p ∈ g.params_and_args, p.subcommand_id = id ∧ p.name = name)) := by
  have hd : (g.params_and_args.any fun p =>
        id == p.subcommand_id && some name == some p.name) = true ↔
      ∃ p ∈ g.params_and_args, p.subcommand_id = id ∧ p.name = name := by
    simp only [List.any_eq_true, Bool.and_eq_true, beq_iff_eq, Option.some.injEq]
    constructor
    · rintro ⟨p, hmem, hid, hname⟩; exact ⟨p, hmem, hid.symm, hname.symm⟩
    · rintro ⟨p, hmem, hid, hname⟩; exact ⟨p, hmem, hid.symm, hname.symm⟩
  unfold clic_check_param_or_arg_declaration
  cases hn : clic_check_name_correctness (some name) with
  | error e => simp [hn]
  | ok u =>
    cases u
    by_cases ha : (g.params_and_args.any fun p =>
        id == p.subcommand_id && some name == some p.name) = true
    · cases should with
      | true =>
        simp only [ha, Bool.not_true, Bool.and_false, Bool.and_true,
          Bool.true_and, if_false]
        exact ⟨fun _ => ⟨trivial, ⟨fun _ => hd.mp ha, fun _ => trivial⟩⟩, fun _ => by simp⟩
      | false =>
        simp only [ha, Bool.not_false, Bool.false_and, Bool.true_and, if_false]
        constructor
        · intro h; exact absurd h (by simp)
        · rintro ⟨-, hiff⟩
          exact absurd (hiff.mpr (hd.mp ha)) (by simp)
    · have ha2 : (g.params_and_args.any fun p =>
          id == p.subcommand_id && some name == some p.name) = false :=
        Bool.not_eq_true _ |>.mp ha
      have hnd : ¬∃ p ∈ g.params_and_args, p.subcommand_id = id ∧ p.name = name :=
        fun h => ha (hd.mpr h)
      cases should with
      | true =>
        simp only [ha2, Bool.not_false, Bool.and_true, Bool.true_and]
        constructor
        · intro h; exact absurd h (by simp)
        · rintro ⟨-, hiff⟩
          exact (hnd (hiff.mp trivial)).elim
      | false =>
        simp only [ha2, Bool.not_false, Bool.false_and, Bool.and_false]
        refine ⟨fun _ => ⟨trivial, ⟨fun h => by exact absurd h (by simp), fun h => absurd h hnd⟩⟩,
          fun _ => by simp⟩

/-- The parameter/argument-declaration check returns either success or a
configuration error. -/
theorem clic_check_param_or_arg_declaration_cases (g : ClicGlobals) (id : Int)
    (name : Option String) (should : Bool) :
    clic_check_param_or_arg_declaration g id name should = .ok () ∨
      ∃ m, clic_check_param_or_arg_declaration g id name should =
        .error (.configurationError m) := by
  unfold clic_check_param_or_arg_declaration
  rcases clic_check_name_correctness_cases name with hok | ⟨m, herr⟩
  · rw [hok]
    by_cases ha : (g.params_and_args.any fun p =>
        id == p.subcommand_id && name == some p.name) = true
    · cases should with
      | true => simp [ha]
      | false =>
        simp only [ha]
        exact .inr ⟨"clic: parameter/argument has already been declared in this scope",
          by simp⟩
    · simp only [Bool.not_eq_true] at ha
      cases should with
      | true =>
        simp only [ha]
        exact .inr ⟨"clic: parameter/argument has not been declared in this scope",
          by simp⟩
      | false => simp [ha]
  · rw [herr]; exact .inr ⟨m, rfl⟩

/-! ## C4: subcommand registration uniqueness -/

/-- A Declaring-state registry with one registered subcommand `(1, "build")`. -/
def gBuild : ClicGlobals :=
  { is_init := true
    subcommand_scopes := [ClicScope.mk 1 "build" "build it" false]
    main_scope := ClicScope.mk 0 "prog" "demo" false }

/-- C4 counterexample: with subcommand `(1, "build")` registered,
`clic_add_subcommand` accepts id 1 again under the fresh name `"deploy"`
(reused id), and accepts the name `"build"` again under the fresh id 2 (reused
name) — the check only rejects when BOTH id and name match one registered
subcommand, contradicting the claim that either collision alone fails. -/
theorem clic_add_subcommand_collision_ok :
    (∃ g, clic_add_subcommand gBuild 1 "deploy" "d" false = .ok g) ∧
    (∃ g, clic_add_subcommand gBuild 2 "build" "d" false = .ok g) :=
  ⟨⟨_, rfl⟩, ⟨_, rfl⟩⟩

/-- C4 amended: in the Declaring state, `clic_add_subcommand` succeeds exactly
when the name is valid, the id is nonzero, and no registered subcommand
carries BOTH the same id and the same name (an id collision alone or a name
collision alone — including with the main scope's name — is accepted); on
failure the error is a ConfigurationError. -/
theorem clic_add_subcommand_success_iff (g : ClicGlobals) (id : Int)
    (name descr : String) (au : Bool)
    (h : g.is_init = true ∧ g.is_parsed = false) :
    ((∃ g2, clic_add_subcommand g id name descr au = .ok g2) ↔
      (clic_check_name_correctness (some name) = .ok () ∧ id ≠ 0 ∧
        ∀ sc ∈ g.subcommand_scopes,
          ¬(sc.subcommand_id = id ∧ sc.subcommand_name = name))) ∧
    (∀ e, clic_add_subcommand g id name descr au = .error e →
      ∃ m, e = .configurationError m) := by
  have hok : clic_check_initialized_and_not_parsed g = .ok () :=
    (clic_check_initialized_ok_iff g).mpr h
  unfold clic_add_subcommand
  rw [hok]
  constructor
  · cases hn : clic_check_name_correctness (some name) with
    | error e =>
      constructor
      · rintro ⟨g2, hg2⟩; cases hg2
      · rintro ⟨hname, -⟩
        cases hname
    | ok u =>
      cases u
      cases hs : clic_check_subcommmand_declaration g id (some name) false with
      | error e =>
        constructor
        · rintro ⟨g2, hg2⟩; cases hg2
        · rintro ⟨-, h0, hall⟩
          have := (clic_check_subcommmand_new_iff g id name).mpr ⟨h0, hn, hall⟩
          rw [hs] at this; cases this
      | ok u =>
        cases u
        constructor
        · intro _
          have := (clic_check_subcommmand_new_iff g id name).mp hs
          exact ⟨rfl, this.1, this.2.2⟩
        · intro _; exact ⟨_, rfl⟩
  · intro e he
    cases hn : clic_check_name_correctness (some name) with
    | error e2 =>
      rw [hn] at he
      rcases clic_check_name_correctness_cases (some name) with h2 | ⟨m, h2⟩
      · rw [hn] at h2; cases h2
      · rw [hn] at h2
        cases he
        cases h2
        exact ⟨m, rfl⟩
    | ok u =>
      cases u
      rw [hn] at he
      cases hs : clic_check_subcommmand_declaration g id (some name) false with
      | error e2 =>
        rw [hs] at he
        rcases clic_check_subcommmand_declaration_cases g id (some name) false with h2 | ⟨m, h2⟩
        · rw [hs] at h2; cases h2
        · rw [hs] at h2
          cases he
          cases h2
          exact ⟨m, rfl⟩
      | ok u =>
        cases u
        rw [hs] at he
        cases he

/-- C4 amended, instantiated: id 3 with fresh name `"run"` registers
successfully in `gBuild`. -/
theorem clic_add_subcommand_success_iff_witness :
    ∃ g2, clic_add_subcommand gBuild 3 "run" "r" false = .ok g2 := by
  refine ((clic_add_subcommand_success_iff gBuild 3 "run" "r" false ⟨rfl, rfl⟩).1).mpr
    ⟨rfl, by decide, by decide⟩

/-! ## C7: add_string_option never checks the entry's kind or restriction -/

/-- A Declaring-state registry whose main scope declares an Int parameter
`--count` (not a String, not restricted). -/
def countParam : ClicParamOrArg :=
  { subcommand_id := 0
    name := "count"
    description := "a count"
    type := .int
    scalar_variable := some 0 }

/-- The registry declaring only `countParam`, in the Declaring state. -/
def gIntCount : ClicGlobals :=
  { is_init := true
    params_and_args := [countParam]
    main_scope := ClicScope.mk 0 "prog" "demo" false }

/-- C7 counterexample: `clic_add_string_option` accepts a value for the
declared entry `"count"` of the main scope even though that entry is an Int
parameter, neither a String nor restricted — the source checks only that the
scope and the `(scopeId, name)` entry are declared, never the entry's `type`
or `restrict_to_declared_options` fields. -/
theorem clic_add_string_option_unrestricted_ok :
    ∃ g, clic_add_string_option gIntCount 0 (some "count") "bogus" = .ok g :=
  ⟨_, rfl⟩

/-- C7 amended: in the Declaring state, `clic_add_string_option` succeeds
exactly when the scope id is 0 or registered, the name is valid, and
`(scopeId, name)` names an already-declared parameter/argument of ANY kind —
whether that entry is a restricted String is not checked; on failure the error
is a ConfigurationError. -/
theorem clic_add_string_option_success_iff (g : ClicGlobals) (id : Int)
    (name value : String) (h : g.is_init = true ∧ g.is_parsed = false) :
    ((∃ g2, clic_add_string_option g id (some name) value = .ok g2) ↔
      ((id = 0 ∨ ∃ sc ∈ g.subcommand_scopes, sc.subcommand_id = id) ∧
        clic_check_name_correctness (some name) = .ok () ∧
        ∃ p ∈ g.params_and_args, p.subcommand_id = id ∧ p.name = name)) ∧
    (∀ e, clic_add_string_option g id (some name) value = .error e →
      ∃ m, e = .configurationError m) := by
  have hok : clic_check_initialized_and_not_parsed g = .ok () :=
    (clic_check_initialized_ok_iff g).mpr h
  unfold clic_add_string_option
  rw [hok]
  constructor
  · cases hs : clic_check_subcommmand_declaration g id none true with
    | error e =>
      constructor
      · rintro ⟨g2, hg2⟩; cases hg2
      · rintro ⟨hscope, -, -⟩
        have := (clic_check_subcommmand_declared_iff g id none).mpr hscope
        rw [hs] at this; cases this
    | ok u =>
      cases u
      cases hp : clic_check_param_or_arg_declaration g id (some name) true with
      | error e =>
        constructor
        · rintro ⟨g2, hg2⟩; cases hg2
        · rintro ⟨-, hname, hdecl⟩
          have := (clic_check_param_or_arg_declaration_iff g id name true).mpr
            ⟨hname, by simp [hdecl]⟩
          rw [hp] at this; cases this
      | ok u =>
        cases u
        constructor
        · intro _
          have h1 := (clic_check_subcommmand_declared_iff g id none).mp hs
          have h2 := (clic_check_param_or_arg_declaration_iff g id name true).mp hp
          exact ⟨h1, h2.1, h2.2.mp rfl⟩
        · intro _; exact ⟨_, rfl⟩
  · intro e he
    cases hs : clic_check_subcommmand_declaration g id none true with
    | error e2 =>
      rw [hs] at he
      rcases clic_check_subcommmand_declaration_cases g id none true with h2 | ⟨m, h2⟩
      · rw [hs] at h2; cases h2
      · rw [hs] at h2
        cases he
        cases h2
        exact ⟨m, rfl⟩
    | ok u =>
      cases u
      rw [hs] at he
      cases hp : clic_check_param_or_arg_declaration g id (some name) true with
      | error e2 =>
        rw [hp] at he
        rcases clic_check_param_or_arg_declaration_cases g id (some name) true with h2 | ⟨m, h2⟩
        · rw [hp] at h2; cases h2
        · rw [hp] at h2
          cases he
          cases h2
          exact ⟨m, rfl⟩
      | ok u =>
        cases u
        rw [hp] at he
        cases he

/-- C7 amended, instantiated: registering a value for the declared entry
`"count"` in `gIntCount` succeeds. -/
theorem clic_add_string_option_success_iff_witness :
    ∃ g2, clic_add_string_option gIntCount 0 (some "count") "fast" = .ok g2 :=
  ((clic_add_string_option_success_iff gIntCount 0 "count" "fast" ⟨rfl, rfl⟩).1).mpr
    ⟨.inl rfl, rfl, by decide⟩

/-! ## C5: the Uninitialized -> Declaring -> Parsed lifecycle -/

/-- Outside the Declaring state, the shared declaration body fails with the
state check's configuration error. -/
theorem clic_add_param_or_arg_not_declaring (g : ClicGlobals) (id : Int)
    (name : Option String) (descr : String) (ty : ClicType) (req : Bool)
    (data : ClicParamOrArg) (m : String)
    (hm : clic_check_initialized_and_not_parsed g = .error (.configurationError m)) :
    clic_add_param_or_arg g id name descr ty req data =
      .error (.configurationError m) := by
  unfold clic_add_param_or_arg
  rw [hm]

/-- C5: every declaration call (`clic_add_subcommand`, the `clic_add_param_*`
and `clic_add_arg_*` family, `clic_add_string_option`) and `clic_parse` fail
with a ConfigurationError whenever the registry is not in the Declaring state
(initialized and not yet parsed); and a `clic_parse` call that runs to
completion leaves the registry with `is_parsed` set, so that any further
`clic_parse` call fails with a ConfigurationError. -/
theorem clic_registry_lifecycle (g : ClicGlobals)
    (h : ¬(g.is_init = true ∧ g.is_parsed = false)) :
    (∀ id name descr au, ∃ m,
      clic_add_subcommand g id name descr au = .error (.configurationError m)) ∧
    (∀ id name descr v mask, ∃ m,
      clic_add_param_flag g id name descr v mask = .error (.configurationError m)) ∧
    (∀ id name descr dv v mask, ∃ m,
      clic_add_param_bool g id name descr dv v mask = .error (.configurationError m)) ∧
    (∀ id name descr dv v, ∃ m,
      clic_add_param_int g id name descr dv v = .error (.configurationError m)) ∧
    (∀ id name descr dv v r, ∃ m,
      clic_add_param_string g id name descr dv v r = .error (.configurationError m)) ∧
    (∀ id name descr v, ∃ m,
      clic_add_arg_int g id name descr v = .error (.configurationError m)) ∧
    (∀ id name descr v r, ∃ m,
      clic_add_arg_string g id name descr v r = .error (.configurationError m)) ∧
    (∀ id name value, ∃ m,
      clic_add_string_option g id name value = .error (.configurationError m)) ∧
    (∀ fuel argv σ, ∃ m,
      clic_parse fuel g argv σ = .error (.configurationError m)) ∧
    (∀ (g0 : ClicGlobals) fuel argv σ out nb σ2 g2,
      clic_parse fuel g0 argv σ = .ok (out, some (.done nb σ2 g2)) →
        g2.is_parsed = true ∧
        ∀ fuel2 argv2 σ3, ∃ m,
          clic_parse fuel2 g2 argv2 σ3 = .error (.configurationError m)) := by
  obtain ⟨m, hm⟩ := clic_check_initialized_error g h
  have hparsed : ∀ (g3 : ClicGlobals), g3.is_parsed = true →
      ∀ fuel2 argv2 σ3, ∃ m2,
        clic_parse fuel2 g3 argv2 σ3 = .error (.configurationError m2) := by
    intro g3 hp3 fuel2 argv2 σ3
    obtain ⟨m2, hm2⟩ := clic_check_initialized_error g3 (by simp [hp3])
    exact ⟨m2, by unfold clic_parse; rw [hm2]⟩
  refine ⟨?_, ?_, ?_, ?_, ?_, ?_, ?_, ?_, ?_, ?_⟩
  · intro id name descr au
    exact ⟨m, by unfold clic_add_subcommand; rw [hm]⟩
  · intro id name descr v mask
    exact ⟨m, by
      unfold clic_add_param_flag
      exact clic_add_param_or_arg_not_declaring _ _ _ _ _ _ _ m hm⟩
  · intro id name descr dv v mask
    exact ⟨m, clic_add_param_or_arg_not_declaring _ _ _ _ _ _ _ m hm⟩
  · intro id name descr dv v
    exact ⟨m, clic_add_param_or_arg_not_declaring _ _ _ _ _ _ _ m hm⟩
  · intro id name descr dv v r
    exact ⟨m, clic_add_param_or_arg_not_declaring _ _ _ _ _ _ _ m hm⟩
  · intro id name descr v
    exact ⟨m, clic_add_param_or_arg_not_declaring _ _ _ _ _ _ _ m hm⟩
  · intro id name descr v r
    exact ⟨m, clic_add_param_or_arg_not_declaring _ _ _ _ _ _ _ m hm⟩
  · intro id name value
    exact ⟨m, by unfold clic_add_string_option; rw [hm]⟩
  · intro fuel argv σ
    exact ⟨m, by unfold clic_parse; rw [hm]⟩
  · intro g0 fuel argv σ out nb σ2 g2 hdone
    unfold clic_parse at hdone
    cases hc : clic_check_initialized_and_not_parsed g0 with
    | error e => rw [hc] at hdone; cases hdone
    | ok u =>
      cases u
      rw [hc] at hdone
      cases hloop : clic_param_loop { g0 with is_parsed := true }
          (clic_detect_subcommand g0 argv).1 argv fuel
          (clic_detect_subcommand g0 argv).2 σ with
      | none => rw [hloop] at hdone; cases hdone
      | some l =>
        cases l with
        | exited => rw [hloop] at hdone; cases hdone
        | broke nb1 σ1 =>
          rw [hloop] at hdone
          simp only [Except.ok.injEq, Prod.mk.injEq, Option.some.injEq,
            ClicParseEnd.done.injEq] at hdone
          have hg2 : clic_cleanup { g0 with is_parsed := true } = g2 := hdone.2.2.2
          have hp2 : g2.is_parsed = true := by rw [← hg2]; rfl
          exact ⟨hp2, hparsed g2 hp2⟩

/-- C5, instantiated: declaring on a never-initialized registry fails, and a
registry that has completed a parse refuses a second parse. -/
theorem clic_registry_lifecycle_witness :
    (∃ m, clic_add_subcommand {} 1 "build" "b" false =
      .error (.configurationError m)) ∧
    (∃ m, clic_parse 1 (clic_cleanup { gBuild with is_parsed := true }) ["prog"] σ0 =
      .error (.configurationError m)) := by
  have h1 := (clic_registry_lifecycle {} (by decide)).1 1 "build" "b" false
  have h2 := (clic_registry_lifecycle {} (by decide)).2.2.2.2.2.2.2.2.2
    gBuild 1 ["prog"] σ0 0 0 σ0 (clic_cleanup { gBuild with is_parsed := true }) rfl
  exact ⟨h1, h2.2 1 ["prog"] σ0⟩

/-! ## C1: clic_parse does not terminate once the parameter loop engages -/

/-- The registry after `clic_init("prog", NULL, NULL, "demo", 0)`. -/
def gInitProg : ClicGlobals := clic_init {} "prog" none none "demo" false

/-- The registry after additionally `clic_add_param_flag(0, 'v', "verbose",
&var, 0)` with the target variable modelled as scalar cell 0. -/
def gFlag : ClicGlobals :=
  { gInitProg with flag_names := ["v"], params_and_args := [flagV] }

/-- `gFlag` is reachable: declaring the flag on the freshly initialized
registry succeeds and produces exactly `gFlag`. -/
theorem gFlag_reachable :
    clic_add_param_flag gInitProg 0 'v' "verbose" 0 0 = .ok gFlag := rfl

/-- `gFlag` with `is_parsed` set, as the parameter loop sees it. -/
def gFlagP : ClicGlobals := { gFlag with is_parsed := true }

/-- One iteration of the parameter loop on `["prog", "-v"]` at position 0
comes back to position 0: the token `-v` matches the declared flag, but
`clic_parse_param_or_arg` returns 0, so no progress is made. -/
theorem clic_param_loop_flag_step (fuel : Nat) (σ : Store) :
    clic_param_loop gFlagP gFlagP.main_scope ["prog", "-v"] (fuel + 1) 0 σ =
      clic_param_loop gFlagP gFlagP.main_scope ["prog", "-v"] fuel 0 σ := rfl

/-- The parameter loop on `["prog", "-v"]` runs out of any amount of fuel:
the C `while` loop never terminates on this input. -/
theorem clic_param_loop_flag_none (fuel : Nat) (σ : Store) :
    clic_param_loop gFlagP gFlagP.main_scope ["prog", "-v"] fuel 0 σ = none := by
  induction fuel with
  | zero => rfl
  | succ n ih => rw [clic_param_loop_flag_step]; exact ih

/-- C1 (against the claim): with the Flag `-v` declared and invocation
`["prog", "-v"]`, the parameter loop of `clic_parse` makes no progress on any
iteration — the matched parameter consumes 0 tokens because
`clic_parse_param_or_arg` is a stub — so for EVERY fuel bound the loop is
still running (`none`) and `clic_parse` never reaches its return statement:
the C function does not terminate on this input instead of returning the
consumed-token count. (The out-pointer write, performed before the loop, is
the only observable effect: the first component 0.) -/
theorem clic_parse_flag_diverges (fuel : Nat) :
    clic_parse fuel gFlag ["prog", "-v"] σ0 = .ok (0, none) ∧
    clic_param_loop gFlagP gFlagP.main_scope ["prog", "-v"] fuel 0 σ0 = none := by
  refine ⟨?_, clic_param_loop_flag_none fuel σ0⟩
  have hc : clic_check_initialized_and_not_parsed gFlag = .ok () := rfl
  have hloop := clic_param_loop_flag_none fuel σ0
  unfold clic_parse
  rw [hc]
  have hdet : clic_detect_subcommand gFlag ["prog", "-v"] = (gFlagP.main_scope, 0) := rfl
  rw [hdet]
  rw [show ({ gFlag with is_parsed := true } : ClicGlobals) = gFlagP from rfl]
  rw [hloop]
  rfl

/-! ## C9, C10: subcommand detection and the out-pointer write -/

/-- In the Declaring state, `clic_parse` always returns successfully with the
detected active scope's id as the value written through the out-pointer,
whatever the parameter loop does. -/
theorem clic_parse_out_shape (g : ClicGlobals) (argv : List String) (σ : Store)
    (fuel : Nat) (hok : clic_check_initialized_and_not_parsed g = .ok ()) :
    ∃ rest, clic_parse fuel g argv σ =
      .ok ((clic_detect_subcommand g argv).1.subcommand_id, rest) := by
  unfold clic_parse
  rw [hok]
  cases hloop : clic_param_loop { g with is_parsed := true }
      (clic_detect_subcommand g argv).1 argv fuel
      (clic_detect_subcommand g argv).2 σ with
  | none => exact ⟨none, rfl⟩
  | some l =>
    cases l with
    | exited => exact ⟨some .exited, rfl⟩
    | broke nb1 σ1 => exact ⟨_, rfl⟩

/-- With zero fuel the parameter loop has not run at all, yet the out-pointer
value is already determined: the write precedes the loop. -/
theorem clic_parse_fuel_zero (g : ClicGlobals) (argv : List String) (σ : Store)
    (hok : clic_check_initialized_and_not_parsed g = .ok ()) :
    clic_parse 0 g argv σ =
      .ok ((clic_detect_subcommand g argv).1.subcommand_id, none) := by
  unfold clic_parse
  rw [hok]
  rfl

/-- Detection with a present `argv[1]` reduces to the scan of the registered
subcommand list. -/
theorem clic_detect_subcommand_some (g : ClicGlobals) (argv : List String)
    (tok : String) (h1 : argv.get? 1 = some tok) :
    clic_detect_subcommand g argv =
      match g.subcommand_scopes.find? (fun scope => tok == scope.subcommand_name) with
      | some scope => (scope, 1)
      | none => (g.main_scope, 0) := by
  unfold clic_detect_subcommand
  rw [h1]

/-- When `argv[1]` exists and some registered subcommand bears that name, the
detection step selects such a scope (the first match) and counts one token. -/
theorem clic_detect_subcommand_found (g : ClicGlobals) (argv : List String)
    (tok : String) (h1 : argv.get? 1 = some tok)
    (h2 : ∃ sc ∈ g.subcommand_scopes, sc.subcommand_name = tok) :
    ∃ sc ∈ g.subcommand_scopes, sc.subcommand_name = tok ∧
      clic_detect_subcommand g argv = (sc, 1) := by
  rw [clic_detect_subcommand_some g argv tok h1]
  cases hf : g.subcommand_scopes.find? (fun scope => tok == scope.subcommand_name) with
  | none =>
    rw [List.find?_eq_none] at hf
    obtain ⟨sc, hmem, hname⟩ := h2
    exact absurd (by simp [hname]) (hf sc hmem)
  | some sc =>
    have hmem := List.mem_of_find?_eq_some hf
    have hname := List.find?_some hf
    simp only [beq_iff_eq] at hname
    exact ⟨sc, hmem, hname.symm, rfl⟩

/-- When `argv[1]` is absent or matches no registered subcommand name, the
detection step selects the main scope and counts no token. -/
theorem clic_detect_subcommand_notfound (g : ClicGlobals) (argv : List String)
    (h : ∀ tok, argv.get? 1 = some tok →
      ∀ sc ∈ g.subcommand_scopes, sc.subcommand_name ≠ tok) :
    clic_detect_subcommand g argv = (g.main_scope, 0) := by
  cases h1 : argv.get? 1 with
  | none => unfold clic_detect_subcommand; rw [h1]
  | some tok =>
    have hf : g.subcommand_scopes.find?
        (fun scope => tok == scope.subcommand_name) = none := by
      rw [List.find?_eq_none]
      intro sc hmem
      simp only [beq_iff_eq]
      exact fun he => h tok h1 sc hmem he.symm
    rw [clic_detect_subcommand_some g argv tok h1, hf]

/-- C9: on a Declaring registry whose main scope carries id 0 (as `clic_init`
sets it), if `argv[1]` exists and exactly matches some registered subcommand's
name then the detection step makes such a scope active, counts 1 consumed
token, and `clic_parse` writes that scope's id through the out-pointer;
otherwise the main scope is active, 0 tokens are counted by this step, and 0
is written. -/
theorem clic_parse_subcommand_detection (g : ClicGlobals) (argv : List String)
    (fuel : Nat) (σ : Store) (hg : g.is_init = true) (hp : g.is_parsed = false)
    (hmain : g.main_scope.subcommand_id = 0) :
    ∃ rest, clic_parse fuel g argv σ =
        .ok ((clic_detect_subcommand g argv).1.subcommand_id, rest) ∧
      ((∃ tok, argv.get? 1 = some tok ∧
          ∃ sc ∈ g.subcommand_scopes, sc.subcommand_name = tok) →
        ∃ sc ∈ g.subcommand_scopes, argv.get? 1 = some sc.subcommand_name ∧
          clic_detect_subcommand g argv = (sc, 1)) ∧
      ((¬∃ tok, argv.get? 1 = some tok ∧
          ∃ sc ∈ g.subcommand_scopes, sc.subcommand_name = tok) →
        clic_detect_subcommand g argv = (g.main_scope, 0) ∧
          (clic_detect_subcommand g argv).1.subcommand_id = 0) := by
  obtain ⟨rest, hrest⟩ := clic_parse_out_shape g argv σ fuel
    ((clic_check_initialized_ok_iff g).mpr ⟨hg, hp⟩)
  refine ⟨rest, hrest, ?_, ?_⟩
  · rintro ⟨tok, h1, h2⟩
    obtain ⟨sc, hmem, hname, hdet⟩ := clic_detect_subcommand_found g argv tok h1 h2
    refine ⟨sc, hmem, ?_, hdet⟩
    rw [h1, hname]
  · intro hnone
    have hdet : clic_detect_subcommand g argv = (g.main_scope, 0) := by
      apply clic_detect_subcommand_notfound
      intro tok h1 sc hmem hname
      exact hnone ⟨tok, h1, sc, hmem, hname⟩
    refine ⟨hdet, ?_⟩
    rw [hdet]
    exact hmain

/-- C9, instantiated: with subcommand `(1, "build")` registered, parsing
`["prog", "build"]` writes subcommand id 1 through the out-pointer. -/
theorem clic_parse_subcommand_detection_witness :
    ∃ rest, clic_parse 5 gBuild ["prog", "build"] σ0 = .ok (1, rest) := by
  obtain ⟨rest, hrest, -, -⟩ :=
    clic_parse_subcommand_detection gBuild ["prog", "build"] 5 σ0 rfl rfl rfl
  exact ⟨rest, hrest⟩

/-- C10: in a normal (non-dump) build, every `clic_parse` call that passes the
state check writes the active scope's id through the `subcommand_id`
out-pointer — for every fuel bound, so in particular before the parameter
loop has run (fuel 0), and regardless of which subcommands are registered or
which tokens are supplied. The C source performs the write with no NULL check
on the pointer; the embedding makes the written value a total component of the
result, which is exactly the contract that the pointer must be valid. -/
theorem clic_parse_writes_out_unconditionally (g : ClicGlobals)
    (argv : List String) (σ : Store) (hg : g.is_init = true)
    (hp : g.is_parsed = false) :
    (∀ fuel, ∃ rest, clic_parse fuel g argv σ =
      .ok ((clic_detect_subcommand g argv).1.subcommand_id, rest)) ∧
    clic_parse 0 g argv σ =
      .ok ((clic_detect_subcommand g argv).1.subcommand_id, none) := by
  have hok := (clic_check_initialized_ok_iff g).mpr ⟨hg, hp⟩
  exact ⟨fun fuel => clic_parse_out_shape g argv σ fuel hok,
    clic_parse_fuel_zero g argv σ hok⟩

/-- C10, instantiated: with no token beyond the program name and no matching
subcommand, the main scope's id 0 is written even with zero fuel. -/
theorem clic_parse_writes_out_unconditionally_witness :
    clic_parse 0 gBuild ["prog"] σ0 = .ok (0, none) :=
  (clic_parse_writes_out_unconditionally gBuild ["prog"] σ0 rfl rfl).2
